import Mathlib

/-
Verification of the lttng-ust futex compatibility dispatch layer
(lttng-ust futex.h) and the kernelcompat.h error-pointer helpers.

The dispatch layer is a header of static inline functions; per platform
family it binds the four public entry points (wait/wake, noasync/async)
to a native backend (Linux sys_futex, FreeBSD _umtx_op) and/or to the
fallback backend (lttng_ust_compat_futex_noasync / _async).

We embed each platform family's entry points as Lean functions over an
environment `Env` supplying the behaviour of the native syscall and the
two fallback functions (each returns a pair: return value and the errno
observed after the call).  Each entry point returns a `DispatchResult`
recording the return value, the errno, and the exact sequence of backend
invocations it performed, so that claims of the form "never invokes the
fallback" or "makes exactly one redirect" are expressible.
-/

/-- struct timespec: seconds and nanoseconds. -/
structure Timespec where
  tv_sec : Int
  tv_nsec : Int
deriving DecidableEq

/-- The argument tuple shared by all entry points:
(uaddr, op, val, timeout, uaddr2, val3).  Addresses are modelled by
their identity (a natural number); the timeout pointer is an
`Option Timespec` (NULL = none). -/
structure FutexArgs where
  uaddr : Nat
  op : Int
  val : Int
  timeout : Option Timespec
  uaddr2 : Nat
  val3 : Int
deriving DecidableEq

/-- FUTEX_WAIT operation code (futex.h line 23). -/
def FUTEX_WAIT : Int := 0

/-- FUTEX_WAKE operation code (futex.h line 24). -/
def FUTEX_WAKE : Int := 1

/-- errno ENOSYS on Linux. -/
def ENOSYS : Int := 38

/-- errno EINVAL (same value on Linux and FreeBSD). -/
def EINVAL : Int := 22

/-- errno EINTR. -/
def EINTR : Int := 4

/-- FreeBSD umtx op UMTX_OP_WAIT_UINT. -/
def UMTX_OP_WAIT_UINT : Int := 11

/-- FreeBSD umtx op UMTX_OP_WAKE. -/
def UMTX_OP_WAKE : Int := 3

/-- FreeBSD flag UMTX_ABSTIME: the _umtx_time timeout is an absolute
time on the given clock, not a relative duration. -/
def UMTX_ABSTIME : Nat := 1

/-- FreeBSD CLOCK_MONOTONIC clock id. -/
def CLOCK_MONOTONIC : Nat := 4

/-- sizeof(struct _umtx_time) on LP64 FreeBSD: a 16-byte timespec plus
two 4-byte fields. -/
def umtx_time_size : Nat := 24

/-- FreeBSD struct _umtx_time as built by the dispatch code. -/
structure UmtxTime where
  _timeout : Timespec
  _flags : Nat
  _clockid : Nat
deriving DecidableEq

/-- The auxiliary pointer arguments of _umtx_op: NULL, a size smuggled
as a pointer, or a pointer to a struct _umtx_time. -/
inductive UmtxPtr where
  | null : UmtxPtr
  | size (n : Nat) : UmtxPtr
  | timePtr (t : UmtxTime) : UmtxPtr
deriving DecidableEq

/-- The argument tuple of a FreeBSD _umtx_op invocation. -/
structure UmtxArgs where
  obj : Nat
  op : Int
  val : Nat
  uaddr : UmtxPtr
  uaddr2 : UmtxPtr
deriving DecidableEq

/-- One backend invocation performed by an entry point. -/
inductive BackendCall where
  | native (a : FutexArgs) : BackendCall
  | umtx (u : UmtxArgs) : BackendCall
  | compatNoasync (a : FutexArgs) : BackendCall
  | compatAsync (a : FutexArgs) : BackendCall
deriving DecidableEq

/-- Whether a backend invocation is a fallback-backend invocation. -/
def BackendCall.is_fallback : BackendCall → Bool
  | .compatNoasync _ => true
  | .compatAsync _ => true
  | _ => false

/-- Whether a backend invocation received the secondary address and the
secondary value of the original argument tuple unchanged.  A umtx
invocation has no slot for them at all. -/
def BackendCall.passes_secondary (a : FutexArgs) : BackendCall → Bool
  | .native b => b.uaddr2 == a.uaddr2 && b.val3 == a.val3
  | .umtx _ => false
  | .compatNoasync b => b.uaddr2 == a.uaddr2 && b.val3 == a.val3
  | .compatAsync b => b.uaddr2 == a.uaddr2 && b.val3 == a.val3

/-- What a call to an entry point returns: the C return value, the errno
observed by the caller afterwards, and the sequence of backend
invocations made. -/
structure DispatchResult where
  ret : Int
  errno : Int
  trace : List BackendCall
deriving DecidableEq

/-- The behaviour of the external backends: the Linux futex syscall, the
FreeBSD _umtx_op syscall, and the two fallback-backend functions.  Each
yields (return value, errno after the call). -/
structure Env where
  sys_futex : FutexArgs → Int × Int
  _umtx_op : UmtxArgs → Int × Int
  compat_noasync : FutexArgs → Int × Int
  compat_async : FutexArgs → Int × Int

/- ===== Family A: Linux (futex.h lines 47-95) ===== -/

/-- lttng_ust_futex (Linux): the raw syscall wrapper, lines 54-59. -/
def lttng_ust_futex (env : Env) (a : FutexArgs) : DispatchResult :=
  let r := env.sys_futex a
  ⟨r.1, r.2, [BackendCall.native a]⟩

/-- lttng_ust_futex_noasync (Linux), lines 61-82: try the native futex;
on ret < 0 with errno ENOSYS redirect to the async-safe fallback. -/
def lttng_ust_futex_noasync (env : Env) (a : FutexArgs) : DispatchResult :=
  let r := lttng_ust_futex env a
  if r.ret < 0 ∧ r.errno = ENOSYS then
    let c := env.compat_async a
    ⟨c.1, c.2, r.trace ++ [BackendCall.compatAsync a]⟩
  else
    r

/-- lttng_ust_futex_async (Linux), lines 84-95: try the native futex;
on ret < 0 with errno ENOSYS redirect to the async-safe fallback. -/
def lttng_ust_futex_async (env : Env) (a : FutexArgs) : DispatchResult :=
  let r := lttng_ust_futex env a
  if r.ret < 0 ∧ r.errno = ENOSYS then
    let c := env.compat_async a
    ⟨c.1, c.2, r.trace ++ [BackendCall.compatAsync a]⟩
  else
    r

/- ===== Family B: FreeBSD (futex.h lines 97-138) ===== -/

/-- lttng_ust_futex_async (FreeBSD), lines 102-132: translate the call
to a single _umtx_op invocation.  The local _umtx_time is initialised
with _flags = UMTX_ABSTIME and _clockid = CLOCK_MONOTONIC; for WAIT with
a non-null timeout the caller's timespec is copied into it, the first
auxiliary pointer carries sizeof(struct _umtx_time) and the second
points at the struct.  An op other than FUTEX_WAIT/FUTEX_WAKE returns
-1 with errno EINVAL before any backend invocation.  val is cast to
uint32_t. -/
def lttng_ust_futex_async_freebsd (env : Env) (a : FutexArgs) : DispatchResult :=
  if a.op = FUTEX_WAIT then
    let u : UmtxArgs :=
      match a.timeout with
      | none =>
          ⟨a.uaddr, UMTX_OP_WAIT_UINT, (a.val % (2:Int)^32).toNat,
            UmtxPtr.null, UmtxPtr.null⟩
      | some t =>
          ⟨a.uaddr, UMTX_OP_WAIT_UINT, (a.val % (2:Int)^32).toNat,
            UmtxPtr.size umtx_time_size,
            UmtxPtr.timePtr ⟨t, UMTX_ABSTIME, CLOCK_MONOTONIC⟩⟩
    let r := env._umtx_op u
    ⟨r.1, r.2, [BackendCall.umtx u]⟩
  else if a.op = FUTEX_WAKE then
    let u : UmtxArgs :=
      ⟨a.uaddr, UMTX_OP_WAKE, (a.val % (2:Int)^32).toNat,
        UmtxPtr.null, UmtxPtr.null⟩
    let r := env._umtx_op u
    ⟨r.1, r.2, [BackendCall.umtx u]⟩
  else
    ⟨-1, EINVAL, []⟩

/-- lttng_ust_futex_noasync (FreeBSD), lines 134-138: delegates to the
async entry point. -/
def lttng_ust_futex_noasync_freebsd (env : Env) (a : FutexArgs) : DispatchResult :=
  lttng_ust_futex_async_freebsd env a

/- ===== Family C: Cygwin (futex.h lines 140-157) ===== -/

/-- lttng_ust_futex_noasync (Cygwin), lines 147-151: unconditionally
delegates to the async-safe fallback. -/
def lttng_ust_futex_noasync_cygwin (env : Env) (a : FutexArgs) : DispatchResult :=
  let c := env.compat_async a
  ⟨c.1, c.2, [BackendCall.compatAsync a]⟩

/-- lttng_ust_futex_async (Cygwin), lines 153-157: unconditionally
delegates to the async-safe fallback. -/
def lttng_ust_futex_async_cygwin (env : Env) (a : FutexArgs) : DispatchResult :=
  let c := env.compat_async a
  ⟨c.1, c.2, [BackendCall.compatAsync a]⟩

/- ===== Family D: generic fallback (futex.h lines 159-171) ===== -/

/-- lttng_ust_futex_noasync (generic), lines 161-165: unconditionally
delegates to the noasync fallback. -/
def lttng_ust_futex_noasync_generic (env : Env) (a : FutexArgs) : DispatchResult :=
  let c := env.compat_noasync a
  ⟨c.1, c.2, [BackendCall.compatNoasync a]⟩

/-- lttng_ust_futex_async (generic), lines 167-171: unconditionally
delegates to the async fallback. -/
def lttng_ust_futex_async_generic (env : Env) (a : FutexArgs) : DispatchResult :=
  let c := env.compat_async a
  ⟨c.1, c.2, [BackendCall.compatAsync a]⟩

/- ===== kernelcompat.h error-pointer helpers (lines 20-37) ===== -/

/-- MAX_ERRNO (kernelcompat.h line 20). -/
def MAX_ERRNO : Nat := 4095

/-- ERR_PTR (kernelcompat.h lines 24-27): cast a long to a pointer.
Pointers are unsigned 64-bit values (LP64), so the cast reduces the
signed value modulo 2^64. -/
def ERR_PTR (error : Int) : Nat := (error % (2:Int)^64).toNat

/-- PTR_ERR (kernelcompat.h lines 29-32): cast a pointer back to a
signed 64-bit long. -/
def PTR_ERR (ptr : Nat) : Int :=
  if ptr < 2^63 then (ptr : Int) else (ptr : Int) - (2:Int)^64

/-- IS_ERR_VALUE (kernelcompat.h line 22):
x >= (unsigned long)-MAX_ERRNO, i.e. x >= 2^64 - 4095. -/
def IS_ERR_VALUE (x : Nat) : Bool := decide (2^64 - MAX_ERRNO ≤ x)

/-- IS_ERR (kernelcompat.h lines 34-37): IS_ERR_VALUE on the pointer
viewed as an unsigned long. -/
def IS_ERR (ptr : Nat) : Bool := IS_ERR_VALUE ptr

/- ===== Concrete environments and argument tuples used by witnesses
and counterexamples ===== -/

/-- A concrete environment whose native backends succeed with 0 and
whose fallbacks return distinguishable values. -/
def env0 : Env :=
  ⟨fun _ => (0, 0), fun _ => (0, 0), fun _ => (7, 0), fun _ => (9, 0)⟩

/-- A concrete environment whose native futex fails with ENOSYS. -/
def envENOSYS : Env :=
  ⟨fun _ => (-1, ENOSYS), fun _ => (0, 0), fun _ => (7, 0), fun _ => (9, 0)⟩

/-- A concrete environment whose native futex fails with EINTR. -/
def envEINTR : Env :=
  ⟨fun _ => (-1, EINTR), fun _ => (0, 0), fun _ => (7, 0), fun _ => (9, 0)⟩

/-- A concrete argument tuple with an unrecognized operation code 2. -/
def argsBadOp : FutexArgs := ⟨0, 2, 0, none, 0, 0⟩

/-- A concrete WAIT tuple with the relative timeout one second. -/
def argsWaitT : FutexArgs := ⟨0, FUTEX_WAIT, 0, some ⟨1, 0⟩, 0, 0⟩

/-- A concrete WAKE tuple with secondary address 3 and value 5. -/
def argsWake35 : FutexArgs := ⟨0, FUTEX_WAKE, 1, none, 3, 5⟩

/-- The same WAKE tuple with secondary address 4 and value 6. -/
def argsWake46 : FutexArgs := ⟨0, FUTEX_WAKE, 1, none, 4, 6⟩

/-- A concrete WAIT tuple without timeout. -/
def argsWait0 : FutexArgs := ⟨0, FUTEX_WAIT, 0, none, 0, 0⟩

/- ===== Claim theorems ===== -/

/-- C9: on Linux, the noasync entry point and the async entry point are
the same function of the environment and the argument tuple: both make
one native futex call and redirect to the async-safe fallback exactly on
an ENOSYS failure. -/
theorem linux_noasync_eq_async (env : Env) (a : FutexArgs) :
    lttng_ust_futex_noasync env a = lttng_ust_futex_async env a := rfl

/-- C7: on Cygwin, both entry points unconditionally delegate to the
async-safe fallback and return its result unchanged; the trace shows the
single compat-async invocation, so the noasync fallback is never
invoked. -/
theorem cygwin_both_delegate_compat_async (env : Env) (a : FutexArgs) :
    lttng_ust_futex_noasync_cygwin env a =
      ⟨(env.compat_async a).1, (env.compat_async a).2, [BackendCall.compatAsync a]⟩ ∧
    lttng_ust_futex_async_cygwin env a =
      ⟨(env.compat_async a).1, (env.compat_async a).2, [BackendCall.compatAsync a]⟩ :=
  ⟨rfl, rfl⟩

/-- C8: on the generic family, the noasync entry point delegates to the
noasync fallback and the async entry point to the async fallback, each
returning the fallback's result unchanged. -/
theorem generic_delegates_matching_fallback (env : Env) (a : FutexArgs) :
    lttng_ust_futex_noasync_generic env a =
      ⟨(env.compat_noasync a).1, (env.compat_noasync a).2, [BackendCall.compatNoasync a]⟩ ∧
    lttng_ust_futex_async_generic env a =
      ⟨(env.compat_async a).1, (env.compat_async a).2, [BackendCall.compatAsync a]⟩ :=
  ⟨rfl, rfl⟩

/-- C6: on FreeBSD, the noasync entry point is extensionally equal to
the async entry point, and the async entry point's trace never contains
a fallback-backend invocation. -/
theorem freebsd_noasync_eq_async_no_fallback (env : Env) (a : FutexArgs) :
    lttng_ust_futex_noasync_freebsd env a = lttng_ust_futex_async_freebsd env a ∧
    ((lttng_ust_futex_async_freebsd env a).trace.all fun c => ! c.is_fallback) = true := by
  refine ⟨rfl, ?_⟩
  rcases a with ⟨u, op, v, t, u2, v3⟩
  cases t <;>
    · simp only [lttng_ust_futex_async_freebsd]
      split_ifs <;> simp [BackendCall.is_fallback]

/-- C1: on Linux, when the native futex call fails with errno ENOSYS,
both the noasync and the async entry point make exactly one redirect to
the async-safe fallback (never the noasync fallback) and return the
fallback's result, so the ENOSYS outcome is not surfaced. -/
theorem linux_enosys_single_redirect_compat_async (env : Env) (a : FutexArgs)
    (h : (env.sys_futex a).1 < 0 ∧ (env.sys_futex a).2 = ENOSYS) :
    lttng_ust_futex_noasync env a =
      ⟨(env.compat_async a).1, (env.compat_async a).2,
        [BackendCall.native a, BackendCall.compatAsync a]⟩ ∧
    lttng_ust_futex_async env a =
      ⟨(env.compat_async a).1, (env.compat_async a).2,
        [BackendCall.native a, BackendCall.compatAsync a]⟩ := by
  constructor <;>
    · simp only [lttng_ust_futex_noasync, lttng_ust_futex_async, lttng_ust_futex]
      rw [if_pos h]
      rfl

/-- C1 witness: with a native futex that fails with ENOSYS, the noasync
entry point returns the async fallback's result 9 after the single
redirect. -/
theorem linux_enosys_single_redirect_compat_async_witness :
    ((envENOSYS.sys_futex argsWait0).1 < 0 ∧ (envENOSYS.sys_futex argsWait0).2 = ENOSYS) ∧
    (lttng_ust_futex_noasync envENOSYS argsWait0 =
      ⟨(envENOSYS.compat_async argsWait0).1, (envENOSYS.compat_async argsWait0).2,
        [BackendCall.native argsWait0, BackendCall.compatAsync argsWait0]⟩ ∧
    lttng_ust_futex_async envENOSYS argsWait0 =
      ⟨(envENOSYS.compat_async argsWait0).1, (envENOSYS.compat_async argsWait0).2,
        [BackendCall.native argsWait0, BackendCall.compatAsync argsWait0]⟩) :=
  ⟨by decide, linux_enosys_single_redirect_compat_async envENOSYS argsWait0 (by decide)⟩

/-- C5: on Linux, when the native futex result is not an ENOSYS failure,
both entry points return the native result verbatim after that single
native call: no fallback, no retry, and in particular an EINTR failure
is surfaced directly. -/
theorem linux_non_enosys_returned_verbatim (env : Env) (a : FutexArgs)
    (h : ¬((env.sys_futex a).1 < 0 ∧ (env.sys_futex a).2 = ENOSYS)) :
    lttng_ust_futex_noasync env a =
      ⟨(env.sys_futex a).1, (env.sys_futex a).2, [BackendCall.native a]⟩ ∧
    lttng_ust_futex_async env a =
      ⟨(env.sys_futex a).1, (env.sys_futex a).2, [BackendCall.native a]⟩ := by
  constructor <;>
    · simp only [lttng_ust_futex_noasync, lttng_ust_futex_async, lttng_ust_futex]
      rw [if_neg h]

/-- C5 witness: with a native futex that fails with EINTR, the noasync
entry point surfaces -1 with errno EINTR directly, with a single native
invocation in its trace. -/
theorem linux_non_enosys_returned_verbatim_witness :
    (¬((envEINTR.sys_futex argsWait0).1 < 0 ∧ (envEINTR.sys_futex argsWait0).2 = ENOSYS)) ∧
    (lttng_ust_futex_noasync envEINTR argsWait0 =
      ⟨(envEINTR.sys_futex argsWait0).1, (envEINTR.sys_futex argsWait0).2,
        [BackendCall.native argsWait0]⟩ ∧
    lttng_ust_futex_async envEINTR argsWait0 =
      ⟨(envEINTR.sys_futex argsWait0).1, (envEINTR.sys_futex argsWait0).2,
        [BackendCall.native argsWait0]⟩) :=
  ⟨by decide, linux_non_enosys_returned_verbatim envEINTR argsWait0 (by decide)⟩

/-- C2 counterexample: on Linux, a call with the unrecognized operation
code 2 does not return -1 with errno EINVAL and no backend invocation;
it forwards the operation to the native backend. -/
theorem linux_bad_op_invokes_native :
    lttng_ust_futex_noasync env0 argsBadOp ≠ ⟨-1, EINVAL, []⟩ ∧
    (lttng_ust_futex_noasync env0 argsBadOp).trace = [BackendCall.native argsBadOp] := by
  decide

/-- C2 amended: only the FreeBSD entry points validate the operation
code; there, any operation other than FUTEX_WAIT and FUTEX_WAKE returns
-1 with errno EINVAL immediately, with no backend invocation at all. -/
theorem freebsd_bad_op_einval_no_backend (env : Env) (a : FutexArgs)
    (h1 : a.op ≠ FUTEX_WAIT) (h2 : a.op ≠ FUTEX_WAKE) :
    lttng_ust_futex_async_freebsd env a = ⟨-1, EINVAL, []⟩ ∧
    lttng_ust_futex_noasync_freebsd env a = ⟨-1, EINVAL, []⟩ := by
  unfold lttng_ust_futex_noasync_freebsd lttng_ust_futex_async_freebsd
  rw [if_neg h1, if_neg h2]
  exact ⟨rfl, rfl⟩

/-- C2 amended witness: operation code 2 on FreeBSD yields -1, EINVAL
and an empty invocation trace from both entry points. -/
theorem freebsd_bad_op_einval_no_backend_witness :
    (argsBadOp.op ≠ FUTEX_WAIT ∧ argsBadOp.op ≠ FUTEX_WAKE) ∧
    (lttng_ust_futex_async_freebsd env0 argsBadOp = ⟨-1, EINVAL, []⟩ ∧
     lttng_ust_futex_noasync_freebsd env0 argsBadOp = ⟨-1, EINVAL, []⟩) :=
  ⟨by decide,
   freebsd_bad_op_einval_no_backend env0 argsBadOp (by decide) (by decide)⟩

/-- C3: on FreeBSD, a WAIT with the relative timeout of one second is
translated to a _umtx_op invocation whose _umtx_time copies the caller's
timespec verbatim but carries the UMTX_ABSTIME flag (a nonzero flag
value), so the native primitive is told to treat it as an absolute
CLOCK_MONOTONIC deadline rather than a relative duration. -/
theorem freebsd_wait_timeout_flagged_absolute :
    (lttng_ust_futex_async_freebsd env0 argsWaitT).trace =
      [BackendCall.umtx ⟨0, UMTX_OP_WAIT_UINT, 0, UmtxPtr.size umtx_time_size,
        UmtxPtr.timePtr ⟨⟨1, 0⟩, UMTX_ABSTIME, CLOCK_MONOTONIC⟩⟩] ∧
    UMTX_ABSTIME ≠ 0 := by
  decide

/-- C4 counterexample: on FreeBSD, two calls that differ only in the
secondary address and the secondary value produce identical results and
identical backend invocations, so those arguments are dropped rather
than passed through. -/
theorem freebsd_drops_secondary_args :
    lttng_ust_futex_async_freebsd env0 argsWake35 =
      lttng_ust_futex_async_freebsd env0 argsWake46 ∧
    argsWake35.uaddr2 ≠ argsWake46.uaddr2 ∧ argsWake35.val3 ≠ argsWake46.val3 := by
  decide

/-- C4 amended: on the Linux, Cygwin and generic families every backend
invocation receives uaddr2 and val3 unchanged, while the FreeBSD
translation to _umtx_op has no slot for them: its result is invariant
under changing them. -/
theorem secondary_args_threading (env : Env) (a : FutexArgs) (x x' : Nat) (y y' : Int) :
    ((lttng_ust_futex_noasync env a).trace.all (BackendCall.passes_secondary a)) = true ∧
    ((lttng_ust_futex_async env a).trace.all (BackendCall.passes_secondary a)) = true ∧
    ((lttng_ust_futex_noasync_cygwin env a).trace.all (BackendCall.passes_secondary a)) = true ∧
    ((lttng_ust_futex_async_cygwin env a).trace.all (BackendCall.passes_secondary a)) = true ∧
    ((lttng_ust_futex_noasync_generic env a).trace.all (BackendCall.passes_secondary a)) = true ∧
    ((lttng_ust_futex_async_generic env a).trace.all (BackendCall.passes_secondary a)) = true ∧
    lttng_ust_futex_async_freebsd env ⟨a.uaddr, a.op, a.val, a.timeout, x, y⟩ =
      lttng_ust_futex_async_freebsd env ⟨a.uaddr, a.op, a.val, a.timeout, x', y'⟩ := by
  refine ⟨?_, ?_, ?_, ?_, ?_, ?_, rfl⟩ <;>
    · simp only [lttng_ust_futex_noasync, lttng_ust_futex_async, lttng_ust_futex,
        lttng_ust_futex_noasync_cygwin, lttng_ust_futex_async_cygwin,
        lttng_ust_futex_noasync_generic, lttng_ust_futex_async_generic]
      first
        | (split_ifs <;> simp [BackendCall.passes_secondary])
        | simp [BackendCall.passes_secondary]

/-- C10: the error-pointer encoding round-trips on 64-bit: PTR_ERR is a
left inverse of ERR_PTR on long values, ERR_PTR is a left inverse of
PTR_ERR on pointer values, and IS_ERR holds of ERR_PTR e exactly when e
viewed as an unsigned long is at least 2^64 - MAX_ERRNO. -/
theorem err_ptr_roundtrip (e : Int) (p : Nat)
    (he1 : -(2:Int)^63 ≤ e) (he2 : e < (2:Int)^63) (hp : p < 2^64) :
    PTR_ERR (ERR_PTR e) = e ∧ ERR_PTR (PTR_ERR p) = p ∧
    (IS_ERR (ERR_PTR e) = true ↔ (2:Int)^64 - (MAX_ERRNO : Int) ≤ e % (2:Int)^64) := by
  unfold PTR_ERR ERR_PTR IS_ERR IS_ERR_VALUE MAX_ERRNO
  refine ⟨?_, ?_, ?_⟩
  · split_ifs <;> omega
  · split_ifs <;> omega
  · simp only [decide_eq_true_eq]
    omega

/-- C10 witness: the round-trip at the concrete long value -17 and the
concrete pointer value 5. -/
theorem err_ptr_roundtrip_witness :
    (-(2:Int)^63 ≤ -17 ∧ (-17:Int) < (2:Int)^63 ∧ (5:Nat) < 2^64) ∧
    (PTR_ERR (ERR_PTR (-17)) = -17 ∧ ERR_PTR (PTR_ERR 5) = 5 ∧
     (IS_ERR (ERR_PTR (-17)) = true ↔
       (2:Int)^64 - (MAX_ERRNO : Int) ≤ (-17) % (2:Int)^64)) :=
  ⟨by norm_num, err_ptr_roundtrip (-17) 5 (by norm_num) (by norm_num) (by norm_num)⟩
